import Mathlib

/-!
Verification of the restic-health per-repository health-check orchestrator.

The development shallowly embeds the program's core functions: the Python
script `restic-health.py`.  External effects (the restic subprocess, the
filesystem, wall-clock time) are passed in explicitly: tool output appears
as oracle functions, the state directory as an explicit store value, and
timestamps as arguments.  Python `datetime` values are modelled with an
explicit naive/aware tag because comparison of a naive with an aware value
raises `TypeError`; Python exceptions are modelled with `Except`.
-/

namespace ResticHealth

/-- A Python `datetime` value: either offset-naive or offset-aware, with the
instant abstracted to an integer.  `datetime.min` is modelled by the
distinguished value `datetimeMinVal`. -/
inductive PyTime where
  | naive (t : Int)
  | aware (t : Int)
deriving DecidableEq

/-- The instant carried by `datetime.min` (and by
`datetime.min.replace(tzinfo=timezone.utc)` on the aware side). -/
def datetimeMinVal : Int := 0

/-- Python exceptions raised by the script.  `toolError`, `staleData` and
`lockTimeout` are all raised in the source as `ResticHealthError` (the data
they carry here is the data the source logs at the raise site); the other
constructors model built-in Python exceptions that are not
`ResticHealthError`. -/
inductive PyError where
  | typeError
  | keyError (key : String)
  | indexError
  | toolError
  | staleData (lastSnapshot : PyTime)
  | lockTimeout (lockIds : List String)
deriving DecidableEq

/-- Whether an exception is an instance of `ResticHealthError` — the only
class caught by the `except` clause in `main`. -/
def PyError.isResticHealthError : PyError → Bool
  | PyError.toolError => true
  | PyError.staleData _ => true
  | PyError.lockTimeout _ => true
  | _ => false

/-- Comparison `a > b` of two Python datetimes: comparing an offset-naive
with an offset-aware value raises `TypeError`. -/
def pyGtTime : PyTime → PyTime → Except PyError Bool
  | PyTime.naive a, PyTime.naive b => Except.ok (decide (b < a))
  | PyTime.aware a, PyTime.aware b => Except.ok (decide (b < a))
  | _, _ => Except.error PyError.typeError

/-- One snapshot as parsed from the tool's JSON listing: its identifier and
its `summary.backup_end` completion time (already parsed with
`datetime.fromisoformat`). -/
structure Snapshot where
  id : String
  backup_end : PyTime
deriving DecidableEq

/-- Helper for `splitlines`: accumulates the current line (reversed) while
scanning.  A trailing newline does not open an empty final line, matching
Python `str.splitlines`. -/
def splitlinesGo : List Char → List Char → List (List Char)
  | acc, [] => [acc.reverse]
  | acc, c :: cs =>
    if c = '\n' then
      match cs with
      | [] => [acc.reverse]
      | _ :: _ => acc.reverse :: splitlinesGo [] cs
    else splitlinesGo (c :: acc) cs

/-- Python `str.splitlines` restricted to `'\n'` separators (the only
separator occurring in the tool output consumed here); the empty string has
no lines. -/
def splitlines (s : List Char) : List (List Char) :=
  match s with
  | [] => []
  | _ :: _ => splitlinesGo [] s

/-- `get_diff_stats`, after the tool call: `stdout.splitlines()[-1]`.
Indexing `[-1]` on an empty line list raises `IndexError`. -/
def get_diff_stats (stdout : String) : Except PyError String :=
  match (splitlines stdout.toList).getLast? with
  | none => Except.error PyError.indexError
  | some l => Except.ok (String.mk l)

/-- C10: `get_diff_stats` returns the last line of the tool's standard
output; the extraction is total exactly when the output has at least one
line, and the `IndexError` branch is taken exactly when it has none. -/
theorem diff_last_line_spec (stdout : String) :
    (∀ h : splitlines stdout.toList ≠ [],
      get_diff_stats stdout = Except.ok (String.mk ((splitlines stdout.toList).getLast h)))
    ∧ (splitlines stdout.toList = [] → get_diff_stats stdout = Except.error PyError.indexError) := by
  constructor
  · intro h
    unfold get_diff_stats
    rw [List.getLast?_eq_getLast _ h]
  · intro h
    unfold get_diff_stats
    rw [List.getLast?_eq_none_iff.mpr h]

/-- C10 witness: on the two-line output `"a\nb"` the last line `"b"` is
returned, and on empty output the `IndexError` branch is taken. -/
theorem diff_last_line_spec_witness :
    get_diff_stats "a\nb" = Except.ok "b"
    ∧ get_diff_stats "" = Except.error PyError.indexError :=
  ⟨(diff_last_line_spec "a\nb").1 (by decide), (diff_last_line_spec "").2 (by decide)⟩

/-!
State store.  The state directory of one repository pair is modelled as an
association list from file names to entries, newest entry first (so lookup
returns the current content of a name, and overwriting is cons).  File
names are lists of characters so that the structure of the names built by
`write_state_file` is available to reasoning.
-/

/-- A file name inside the repository pair's state directory. -/
abbrev FName := List Char

/-- A directory entry: a regular file with content, or a symlink with a
(relative) target name. -/
inductive FSEntry where
  | file (content : String)
  | link (target : FName)
deriving DecidableEq

/-- The state directory: newest entries first. -/
abbrev FS := List (FName × FSEntry)

/-- Current entry under a name (the most recently written one). -/
def FS.lookupName : FS → FName → Option FSEntry
  | [], _ => none
  | (m, e) :: rest, n => if m = n then some e else FS.lookupName rest n

/-- The `.json` suffix of artifact file names. -/
def jsonSuffix : FName := ['.', 'j', 's', 'o', 'n']

/-- The `.latest.json` suffix of pointer names. -/
def latestSuffix : FName := ['.', 'l', 'a', 't', 'e', 's', 't', '.', 'j', 's', 'o', 'n']

/-- The artifact file name `f'{category}-{time_str}.json'`. -/
def artifactName (category timeStr : FName) : FName :=
  category ++ '-' :: (timeStr ++ jsonSuffix)

/-- The pointer name `f'{category}.latest.json'`. -/
def pointerName (category : FName) : FName :=
  category ++ latestSuffix

/-- `write_state_file`: writes the payload to the timestamped artifact file,
removes any previous pointer symlink, and creates the pointer symlink to the
new artifact.  In the newest-first store this is two cons cells: the file
write, then the pointer replacement. -/
def write_state_file (category timeStr : FName) (content : String) (fs : FS) : FS :=
  (pointerName category, FSEntry.link (artifactName category timeStr)) ::
    (artifactName category timeStr, FSEntry.file content) :: fs

/-- Resolve the `latest` pointer of a category: follow the symlink and read
the target file. -/
def resolveLatest (fs : FS) (category : FName) : Option String :=
  match fs.lookupName (pointerName category) with
  | some (FSEntry.link target) =>
    match fs.lookupName target with
    | some (FSEntry.file c) => some c
    | _ => none
  | _ => none

/-- A sequence of `write_state_file` calls for one category, oldest first;
each element pairs the write's timestamp string with its payload. -/
def persistAll (category : FName) (ws : List (FName × String)) (fs : FS) : FS :=
  ws.foldl (fun acc w => write_state_file category w.1 w.2 acc) fs

lemma lookupName_cons_self (n : FName) (e : FSEntry) (fs : FS) :
    FS.lookupName ((n, e) :: fs) n = some e := by
  simp [FS.lookupName]

lemma lookupName_cons_ne (m n : FName) (e : FSEntry) (fs : FS) (h : m ≠ n) :
    FS.lookupName ((m, e) :: fs) n = FS.lookupName fs n := by
  simp [FS.lookupName, h]

lemma artifactName_ne_pointerName (c t c2 : FName) (hc : c = c2) :
    artifactName c t ≠ pointerName c2 := by
  subst hc
  intro h
  unfold artifactName pointerName latestSuffix at h
  have h2 := List.append_cancel_left h
  simp at h2

lemma artifactName_inj_time (c t1 t2 : FName) (h : artifactName c t1 = artifactName c t2) :
    t1 = t2 := by
  unfold artifactName at h
  have h2 := List.append_cancel_left h
  have h3 : t1 ++ jsonSuffix = t2 ++ jsonSuffix := by
    injection h2
  exact List.append_cancel_right h3

/-- Looking up an artifact written by `write_state_file` returns its payload. -/
lemma write_lookup_self (c t : FName) (content : String) (fs : FS) :
    FS.lookupName (write_state_file c t content fs) (artifactName c t)
      = some (FSEntry.file content) := by
  unfold write_state_file
  rw [lookupName_cons_ne _ _ _ _ (fun h => artifactName_ne_pointerName c t c rfl h.symm),
    lookupName_cons_self]

/-- A `write_state_file` call leaves every other artifact of the same
category (any distinct timestamp) unchanged. -/
lemma write_lookup_other_artifact (c t t2 : FName) (content : String) (fs : FS)
    (h : t2 ≠ t) :
    FS.lookupName (write_state_file c t content fs) (artifactName c t2)
      = FS.lookupName fs (artifactName c t2) := by
  unfold write_state_file
  rw [lookupName_cons_ne _ _ _ _ (fun hh => artifactName_ne_pointerName c t2 c rfl hh.symm),
    lookupName_cons_ne _ _ _ _ (fun hh => h (artifactName_inj_time c t t2 hh).symm)]

/-- After any sequence of persists whose timestamp strings are pairwise
distinct, every artifact written still holds its original payload. -/
lemma persistAll_lookup (category : FName) (fs0 : FS) (ws : List (FName × String))
    (hdist : (ws.map Prod.fst).Nodup) :
    ∀ w ∈ ws, FS.lookupName (persistAll category ws fs0) (artifactName category w.1)
      = some (FSEntry.file w.2) := by
  induction ws using List.reverseRecOn with
  | nil => intro w hw; simp at hw
  | append_singleton ws w ih =>
    rw [List.map_append, List.nodup_append] at hdist
    obtain ⟨h1, _, hdisj⟩ := hdist
    have hwnot : w.1 ∉ ws.map Prod.fst := by
      intro hmem
      exact hdisj hmem (by simp)
    intro w2 hw2
    have hfold : persistAll category (ws ++ [w]) fs0
        = write_state_file category w.1 w.2 (persistAll category ws fs0) := by
      simp [persistAll, List.foldl_append]
    rcases List.mem_append.mp hw2 with hin | hlast
    · have hne : w2.1 ≠ w.1 := by
        intro he
        exact hwnot (he ▸ List.mem_map_of_mem Prod.fst hin)
      rw [hfold, write_lookup_other_artifact _ _ _ _ _ hne]
      exact ih h1 w2 hin
    · have : w2 = w := by simpa using hlast
      subst this
      rw [hfold]
      exact write_lookup_self category w2.1 w2.2 (persistAll category ws fs0)

/-- After a nonempty sequence of persists, the `latest` pointer resolves to
the payload of the final persist. -/
lemma persistAll_resolve (category : FName) (fs0 : FS) (ws : List (FName × String))
    (w : FName × String) (hlast : ws.getLast? = some w) :
    resolveLatest (persistAll category ws fs0) category = some w.2 := by
  rcases List.eq_nil_or_concat ws with rfl | ⟨ws0, b, rfl⟩
  · simp at hlast
  · simp only [List.concat_eq_append] at hlast ⊢
    rw [List.getLast?_concat] at hlast
    obtain rfl : w = b := by injection hlast with h; exact h.symm
    have hfold : persistAll category (ws0 ++ [w]) fs0
        = write_state_file category w.1 w.2 (persistAll category ws0 fs0) := by
      simp [persistAll, List.foldl_append]
    rw [hfold]
    have hne : pointerName category ≠ artifactName category w.1 :=
      fun h => artifactName_ne_pointerName category w.1 category rfl h.symm
    simp [resolveLatest, write_state_file, FS.lookupName, hne]

/-- C1 (amended): after a sequence of successful persists to one category
whose write timestamps are pairwise distinct, the `latest` pointer resolves
to exactly the final payload, and every artifact written earlier still holds
its original payload under its own timestamped name.  (When two persists to
the same category fall in the same second the timestamped names coincide and
the earlier artifact is overwritten; see the counterexample.) -/
theorem persist_pointer_correct (category : FName) (fs0 : FS) (ws : List (FName × String)) :
    (∀ w, ws.getLast? = some w →
      resolveLatest (persistAll category ws fs0) category = some w.2)
    ∧ ((ws.map Prod.fst).Nodup →
      ∀ w ∈ ws, FS.lookupName (persistAll category ws fs0) (artifactName category w.1)
        = some (FSEntry.file w.2)) :=
  ⟨fun w hw => persistAll_resolve category fs0 ws w hw,
   fun hdist => persistAll_lookup category fs0 ws hdist⟩

/-- Sample category name `raw-snapshots`. -/
def sampleCat : FName := "raw-snapshots".toList

/-- Two distinct second-granularity write timestamps. -/
def sampleT1 : FName := "2026-10-12-1760000000".toList

/-- Second sample timestamp, one second after `sampleT1`. -/
def sampleT2 : FName := "2026-10-12-1760000001".toList

/-- C1 witness: two persists with distinct timestamps; the pointer resolves
to the second payload and the first artifact still holds its payload. -/
theorem persist_pointer_correct_witness :
    resolveLatest (persistAll sampleCat [(sampleT1, "a"), (sampleT2, "b")] []) sampleCat
      = some "b"
    ∧ ∀ w ∈ [(sampleT1, "a"), (sampleT2, "b")],
        FS.lookupName (persistAll sampleCat [(sampleT1, "a"), (sampleT2, "b")] [])
            (artifactName sampleCat w.1)
          = some (FSEntry.file w.2) :=
  ⟨(persist_pointer_correct sampleCat [] [(sampleT1, "a"), (sampleT2, "b")]).1
      (sampleT2, "b") (by decide),
   (persist_pointer_correct sampleCat [] [(sampleT1, "a"), (sampleT2, "b")]).2 (by decide)⟩

/-- C1 counterexample: two persists to the same category within the same
second produce the same timestamped file name (the format
`%Y-%m-%d-%s` has second granularity), so the second write overwrites the
first artifact instead of leaving it unchanged — the claim's unconditional
"previous artifacts remain on disk unchanged" fails. -/
theorem persist_same_second_overwrites :
    FS.lookupName (persistAll sampleCat [(sampleT1, "a"), (sampleT1, "b")] [])
        (artifactName sampleCat sampleT1)
      ≠ some (FSEntry.file "a") := by
  decide

/-!
Freshness check and freshness gate.
-/

/-- `get_latest_snapshot_timestamp`: `datetime.min` (offset-naive) when the
tool's snapshot list is empty, otherwise the parsed `summary.backup_end` of
the final list entry. -/
def get_latest_snapshot_timestamp (snapshots : List Snapshot) : PyTime :=
  match snapshots.getLast? with
  | none => PyTime.naive datetimeMinVal
  | some s => s.backup_end

/-- `get_latest_statefile_timestamp`: `datetime.min` made offset-aware (UTC)
when the `raw-snapshots` latest pointer does not exist, otherwise the
pointer's `st_mtime` interpreted as UTC (always offset-aware). -/
def get_latest_statefile_timestamp (pointerMtime : Option Int) : PyTime :=
  match pointerMtime with
  | none => PyTime.aware datetimeMinVal
  | some m => PyTime.aware m

/-- `has_fresh_snapshot`: compares the latest snapshot completion time with
the latest state-file time and also returns the snapshot time.  The Python
`>` on datetimes raises `TypeError` when one side is naive and the other
aware. -/
def has_fresh_snapshot (snapshots : List Snapshot) (pointerMtime : Option Int) :
    Except PyError (Bool × PyTime) :=
  let tSnap := get_latest_snapshot_timestamp snapshots
  let tState := get_latest_statefile_timestamp pointerMtime
  match pyGtTime tSnap tState with
  | Except.error e => Except.error e
  | Except.ok b => Except.ok (b, tSnap)

/-- C4: the freshness check does not yield a boolean in the empty-repository
case.  With no snapshots, `get_latest_snapshot_timestamp` returns the
offset-naive `datetime.min` while the state-file side is always
offset-aware, so the comparison raises `TypeError` — whether or not the
latest pointer exists. -/
theorem has_fresh_empty_type_error (pointerMtime : Option Int) :
    has_fresh_snapshot [] pointerMtime = Except.error PyError.typeError := by
  cases pointerMtime <;> rfl

/-- `wait_until_fresh_snapshot`'s loop.  `obs j` is the outcome of the j-th
`has_fresh_snapshot` call (counting from the given start index), the second
argument is `config.retry_delay`, the final argument is the remaining retry
budget (`config.retries` initially).  Returns the number of freshness
observations performed, the list of sleeps performed, and the outcome; retry
exhaustion raises the stale-data error carrying the timestamp logged at the
raise site. -/
def wait_until_fresh_go (obs : Nat → Except PyError (Bool × PyTime)) (delay : Nat) :
    Nat → Nat → Nat × List Nat × Except PyError Unit
  | k, 0 =>
    match obs k with
    | Except.error e => (1, [], Except.error e)
    | Except.ok (true, _) => (1, [], Except.ok ())
    | Except.ok (false, ts) => (1, [], Except.error (PyError.staleData ts))
  | k, Nat.succ r =>
    match obs k with
    | Except.error e => (1, [], Except.error e)
    | Except.ok (true, _) => (1, [], Except.ok ())
    | Except.ok (false, _) =>
      let rest := wait_until_fresh_go obs delay (k + 1) r
      (rest.1 + 1, delay :: rest.2.1, rest.2.2)

/-- `wait_until_fresh_snapshot`, entered with the configured retry budget. -/
def wait_until_fresh_snapshot (obs : Nat → Except PyError (Bool × PyTime))
    (delay retries : Nat) : Nat × List Nat × Except PyError Unit :=
  wait_until_fresh_go obs delay 0 retries

lemma wait_until_fresh_go_never_fresh (obs : Nat → Except PyError (Bool × PyTime))
    (tsOf : Nat → PyTime) (delay : Nat)
    (h : ∀ j, obs j = Except.ok (false, tsOf j)) :
    ∀ r k, wait_until_fresh_go obs delay k r
      = (r + 1, List.replicate r delay, Except.error (PyError.staleData (tsOf (k + r)))) := by
  intro r
  induction r with
  | zero => intro k; simp [wait_until_fresh_go, h k]
  | succ r ih =>
    intro k
    simp only [wait_until_fresh_go, h k, ih (k + 1), List.replicate_succ]
    have : k + 1 + r = k + (r + 1) := by omega
    rw [this]

/-- C3: when freshness never holds, the gate performs exactly
`retries + 1` observations (one initial plus one per retry), sleeping the
configured fixed delay between consecutive observations, and then fails
with the stale-data error carrying the snapshot timestamp of the final
observation. -/
theorem freshness_retry_bound (obs : Nat → Except PyError (Bool × PyTime))
    (tsOf : Nat → PyTime) (delay retries : Nat)
    (h : ∀ j, obs j = Except.ok (false, tsOf j)) :
    wait_until_fresh_snapshot obs delay retries
      = (retries + 1, List.replicate retries delay,
          Except.error (PyError.staleData (tsOf retries))) := by
  unfold wait_until_fresh_snapshot
  rw [wait_until_fresh_go_never_fresh obs tsOf delay h retries 0]
  simp

/-- C3 witness: with retry budget 3 and delay 0, a never-fresh repository is
observed exactly 4 times and then fails carrying the last timestamp. -/
theorem freshness_retry_bound_witness :
    wait_until_fresh_snapshot (fun _ => Except.ok (false, PyTime.aware 42)) 0 3
      = (4, [0, 0, 0], Except.error (PyError.staleData (PyTime.aware 42))) :=
  freshness_retry_bound (fun _ => Except.ok (false, PyTime.aware 42))
    (fun _ => PyTime.aware 42) 0 3 (fun _ => rfl)

/-!
Lock gate.
-/

/-- One observable action of the lock gate: the idempotent `restic unlock`
(stale-lock clearance), the `restic list locks` call with the lock ids it
returned, or the `restic cat lock` dump of one lock's contents. -/
inductive LockEvent where
  | unlockCall
  | listLocksCall (locks : List String)
  | catLockCall (lockId : String) (content : String)
deriving DecidableEq

/-- `wait_until_unlocked`'s loop.  `locksAt j` is the list of active lock
ids returned on the j-th attempt and `contentOf` the tool's dump of a lock's
contents; the final argument is the remaining retry budget.  Returns the
trace of tool actions, the sleeps performed, and the outcome; on exhaustion
every lock listed on the final attempt is dumped before the lock-timeout
error carrying exactly those ids is raised. -/
def wait_until_unlocked_go (locksAt : Nat → List String) (contentOf : String → String)
    (delay : Nat) : Nat → Nat → List LockEvent × List Nat × Except PyError Unit
  | k, 0 =>
    if (locksAt k).isEmpty then
      ([LockEvent.unlockCall, LockEvent.listLocksCall (locksAt k)], [], Except.ok ())
    else
      ([LockEvent.unlockCall, LockEvent.listLocksCall (locksAt k)]
          ++ (locksAt k).map (fun l => LockEvent.catLockCall l (contentOf l)),
        [], Except.error (PyError.lockTimeout (locksAt k)))
  | k, Nat.succ r =>
    if (locksAt k).isEmpty then
      ([LockEvent.unlockCall, LockEvent.listLocksCall (locksAt k)], [], Except.ok ())
    else
      let rest := wait_until_unlocked_go locksAt contentOf delay (k + 1) r
      ([LockEvent.unlockCall, LockEvent.listLocksCall (locksAt k)] ++ rest.1,
        delay :: rest.2.1, rest.2.2)

/-- `wait_until_unlocked`, entered with the configured retry budget. -/
def wait_until_unlocked (locksAt : Nat → List String) (contentOf : String → String)
    (delay retries : Nat) : List LockEvent × List Nat × Except PyError Unit :=
  wait_until_unlocked_go locksAt contentOf delay 0 retries

/-- The trace of attempts `k, k+1, …, k+n`: each attempt is the clearance
call immediately followed by the listing call. -/
def attemptTraces (locksAt : Nat → List String) : Nat → Nat → List LockEvent
  | k, 0 => [LockEvent.unlockCall, LockEvent.listLocksCall (locksAt k)]
  | k, Nat.succ n =>
    [LockEvent.unlockCall, LockEvent.listLocksCall (locksAt k)]
      ++ attemptTraces locksAt (k + 1) n

lemma wait_until_unlocked_go_fail (locksAt : Nat → List String)
    (contentOf : String → String) (delay : Nat) :
    ∀ r k, (∀ j, j ≤ r → locksAt (k + j) ≠ []) →
      wait_until_unlocked_go locksAt contentOf delay k r
        = (attemptTraces locksAt k r
              ++ (locksAt (k + r)).map (fun l => LockEvent.catLockCall l (contentOf l)),
            List.replicate r delay,
            Except.error (PyError.lockTimeout (locksAt (k + r)))) := by
  intro r
  induction r with
  | zero =>
    intro k h
    have h0 : locksAt k ≠ [] := by simpa using h 0 (Nat.le_refl 0)
    have hne : (locksAt k).isEmpty = false := by
      simpa [List.isEmpty_iff] using h0
    simp [wait_until_unlocked_go, attemptTraces, hne]
  | succ r ih =>
    intro k h
    have h0 : locksAt k ≠ [] := by simpa using h 0 (Nat.zero_le _)
    have hne : (locksAt k).isEmpty = false := by
      simpa [List.isEmpty_iff] using h0
    have hshift : ∀ j, j ≤ r → locksAt (k + 1 + j) ≠ [] := by
      intro j hj
      have : k + 1 + j = k + (j + 1) := by omega
      rw [this]
      exact h (j + 1) (by omega)
    have hidx : k + 1 + r = k + (r + 1) := by omega
    simp only [wait_until_unlocked_go, hne, ih (k + 1) hshift, attemptTraces,
      List.replicate_succ, hidx, Bool.false_eq_true, if_false, List.append_assoc]

lemma wait_until_unlocked_go_ok_iff (locksAt : Nat → List String)
    (contentOf : String → String) (delay : Nat) :
    ∀ r k, ((wait_until_unlocked_go locksAt contentOf delay k r).2.2 = Except.ok ()
      ↔ ∃ i, i ≤ r ∧ locksAt (k + i) = []) := by
  intro r
  induction r with
  | zero =>
    intro k
    by_cases hk : locksAt k = []
    · have hne : (locksAt k).isEmpty = true := by simpa [List.isEmpty_iff] using hk
      simp only [wait_until_unlocked_go, hne, if_true]
      constructor
      · intro _; exact ⟨0, Nat.le_refl 0, by simpa using hk⟩
      · intro _; trivial
    · have hne : (locksAt k).isEmpty = false := by simpa [List.isEmpty_iff] using hk
      simp only [wait_until_unlocked_go, hne, Bool.false_eq_true, if_false]
      constructor
      · intro h; cases h
      · rintro ⟨i, hi, hempty⟩
        interval_cases i
        exact absurd (by simpa using hempty) hk
  | succ r ih =>
    intro k
    by_cases hk : locksAt k = []
    · have hne : (locksAt k).isEmpty = true := by simpa [List.isEmpty_iff] using hk
      simp [wait_until_unlocked_go, hne]
      exact ⟨0, by omega, by simpa using hk⟩
    · have hne : (locksAt k).isEmpty = false := by simpa [List.isEmpty_iff] using hk
      simp only [wait_until_unlocked_go, hne, Bool.false_eq_true, if_false]
      rw [ih (k + 1)]
      constructor
      · rintro ⟨i, hi, hempty⟩
        refine ⟨i + 1, by omega, ?_⟩
        have : k + (i + 1) = k + 1 + i := by omega
        rw [this]; exact hempty
      · rintro ⟨i, hi, hempty⟩
        match i, hempty with
        | 0, hempty => exact absurd (by simpa using hempty) hk
        | i + 1, hempty =>
          refine ⟨i, by omega, ?_⟩
          have : k + 1 + i = k + (i + 1) := by omega
          rw [this]; exact hempty

lemma wait_until_unlocked_go_success (locksAt : Nat → List String)
    (contentOf : String → String) (delay : Nat) :
    ∀ i k r, i ≤ r → locksAt (k + i) = [] → (∀ j, j < i → locksAt (k + j) ≠ []) →
      wait_until_unlocked_go locksAt contentOf delay k r
        = (attemptTraces locksAt k i, List.replicate i delay, Except.ok ()) := by
  intro i
  induction i with
  | zero =>
    intro k r _ hempty _
    have hne : (locksAt k).isEmpty = true := by
      simpa [List.isEmpty_iff] using hempty
    cases r <;> simp [wait_until_unlocked_go, attemptTraces, hne]
  | succ i ih =>
    intro k r hir hempty hbefore
    have h0 : locksAt k ≠ [] := by simpa using hbefore 0 (by omega)
    have hne : (locksAt k).isEmpty = false := by simpa [List.isEmpty_iff] using h0
    match r, hir with
    | r + 1, hir =>
      have hempty2 : locksAt (k + 1 + i) = [] := by
        have : k + 1 + i = k + (i + 1) := by omega
        rw [this]; exact hempty
      have hbefore2 : ∀ j, j < i → locksAt (k + 1 + j) ≠ [] := by
        intro j hj
        have : k + 1 + j = k + (j + 1) := by omega
        rw [this]; exact hbefore (j + 1) (by omega)
      simp only [wait_until_unlocked_go, hne, Bool.false_eq_true, if_false,
        ih (k + 1) r (by omega) hempty2 hbefore2, attemptTraces, List.replicate_succ]

/-- C6: on every attempt the lock gate invokes the stale-lock clearance
immediately before listing the active locks (visible in the trace of both
the exhaustion and the success characterizations); the gate succeeds exactly
when some listing within the retry budget comes back empty; and when every
listing is nonempty it dumps the contents of exactly the locks listed on the
final attempt and fails with the lock-timeout error carrying exactly those
lock ids. -/
theorem lock_gate_spec (locksAt : Nat → List String) (contentOf : String → String)
    (delay retries : Nat) :
    ((∀ j, j ≤ retries → locksAt j ≠ []) →
      wait_until_unlocked locksAt contentOf delay retries
        = (attemptTraces locksAt 0 retries
              ++ (locksAt retries).map (fun l => LockEvent.catLockCall l (contentOf l)),
            List.replicate retries delay,
            Except.error (PyError.lockTimeout (locksAt retries))))
    ∧ ((wait_until_unlocked locksAt contentOf delay retries).2.2 = Except.ok ()
        ↔ ∃ i, i ≤ retries ∧ locksAt i = [])
    ∧ (∀ i, i ≤ retries → locksAt i = [] → (∀ j, j < i → locksAt j ≠ []) →
        wait_until_unlocked locksAt contentOf delay retries
          = (attemptTraces locksAt 0 i, List.replicate i delay, Except.ok ())) := by
  refine ⟨?_, ?_, ?_⟩
  · intro h
    have := wait_until_unlocked_go_fail locksAt contentOf delay retries 0
      (by intro j hj; simpa using h j hj)
    simpa [wait_until_unlocked] using this
  · have := wait_until_unlocked_go_ok_iff locksAt contentOf delay retries 0
    simpa [wait_until_unlocked] using this
  · intro i hi hempty hbefore
    have := wait_until_unlocked_go_success locksAt contentOf delay i 0 retries hi
      (by simpa using hempty) (by intro j hj; simpa using hbefore j hj)
    simpa [wait_until_unlocked] using this

/-- A repository that stays locked: one active lock on every attempt. -/
def stuckLocks : Nat → List String := fun _ => ["lock1"]

/-- A lock-contents oracle for the witness. -/
def sampleLockContent : String → String := fun l => String.append l "-contents"

/-- C6 witness: with one retry and a permanently locked repository, the
trace is clearance-then-listing on both attempts followed by the dump of the
final lock, and the error carries exactly that lock id; and the gate indeed
did not succeed. -/
theorem lock_gate_spec_witness :
    wait_until_unlocked stuckLocks sampleLockContent 0 1
      = ([LockEvent.unlockCall, LockEvent.listLocksCall ["lock1"],
          LockEvent.unlockCall, LockEvent.listLocksCall ["lock1"],
          LockEvent.catLockCall "lock1" "lock1-contents"],
          [0], Except.error (PyError.lockTimeout ["lock1"]))
    ∧ ¬ ((wait_until_unlocked stuckLocks sampleLockContent 0 1).2.2 = Except.ok ()) :=
  ⟨(lock_gate_spec stuckLocks sampleLockContent 0 1).1
      (fun j _ => by simp [stuckLocks]),
   fun h => by
    rcases ((lock_gate_spec stuckLocks sampleLockContent 0 1).2.1).mp h with ⟨i, _, hbad⟩
    exact absurd hbad (by simp [stuckLocks])⟩

/-!
Collect phase of `handle_repo` (after both gates have passed).
-/

/-- The payload `json.dumps({'snapshot_count': n})`. -/
def countPayload (n : Nat) : String :=
  "\x7b\"snapshot_count\": " ++ toString n ++ "\x7d"

/-- The Collect phase of `handle_repo`: persists the raw snapshot listing
and the snapshot count; when at least one snapshot exists, additionally the
restore-size stats of the latest snapshot; when at least two exist,
additionally the diff stats between the last two entries of the listing
(`snapshots[-2:]`), in listing order.  `statsOut mode snap` and
`diffOut ids` are the tool's stdout for the corresponding invocations.
Returns the persisted (category, payload) pairs in write order. -/
def collectPhase (rawSnapshots : String) (snapshots : List Snapshot)
    (statsOut : String → Option String → String) (diffOut : List String → String) :
    Except PyError (List (String × String)) :=
  let base := [("raw-snapshots", rawSnapshots),
               ("snapshot-count", countPayload snapshots.length)]
  let withStats :=
    if 1 ≤ snapshots.length then
      base ++ [("raw-stats-restore-size-latest", statsOut "restore-size" (some "latest"))]
    else base
  if 2 ≤ snapshots.length then
    let latestTwo := (snapshots.drop (snapshots.length - 2)).map Snapshot.id
    match get_diff_stats (diffOut latestTwo) with
    | Except.error e => Except.error e
    | Except.ok d => Except.ok (withStats ++ [("raw-diff-stats-latest", d)])
  else Except.ok withStats

lemma drop_length_sub_two (l : List Snapshot) (a b : Snapshot) :
    (l ++ [a, b]).drop ((l ++ [a, b]).length - 2) = [a, b] := by
  have h1 : (l ++ [a, b]).length - 2 = l.length := by simp
  rw [h1]
  exact List.drop_left l [a, b]

/-- C2: with an empty snapshot list the Collect phase persists exactly the
snapshot listing and a count of 0 — no restore-size, raw-data or diff
artifact; with at least two snapshots, the diff is computed from exactly the
identifiers of the last two entries of the listing in arrival order (the
older of the pair first), and its last output line is persisted. -/
theorem collect_artifacts_spec :
    (∀ raw statsOut diffOut,
      collectPhase raw [] statsOut diffOut
        = Except.ok [("raw-snapshots", raw), ("snapshot-count", countPayload 0)])
    ∧ (∀ raw (front : List Snapshot) (a b : Snapshot) statsOut diffOut,
      splitlines (diffOut [a.id, b.id]).toList ≠ [] →
      ∃ d, get_diff_stats (diffOut [a.id, b.id]) = Except.ok d
        ∧ collectPhase raw (front ++ [a, b]) statsOut diffOut
          = Except.ok [("raw-snapshots", raw),
                       ("snapshot-count", countPayload (front.length + 2)),
                       ("raw-stats-restore-size-latest", statsOut "restore-size" (some "latest")),
                       ("raw-diff-stats-latest", d)]) := by
  constructor
  · intro raw statsOut diffOut
    rfl
  · intro raw front a b statsOut diffOut hlines
    have hids : ((front ++ [a, b]).drop ((front ++ [a, b]).length - 2)).map Snapshot.id
        = [a.id, b.id] := by
      rw [drop_length_sub_two]
      rfl
    obtain ⟨d, hd⟩ : ∃ d, get_diff_stats (diffOut [a.id, b.id]) = Except.ok d :=
      ⟨String.mk ((splitlines (diffOut [a.id, b.id]).toList).getLast hlines), by
        unfold get_diff_stats
        rw [List.getLast?_eq_getLast _ hlines]⟩
    refine ⟨d, hd, ?_⟩
    have h2 : 2 ≤ (front ++ [a, b]).length := by simp
    have h1 : 1 ≤ (front ++ [a, b]).length := by simp
    simp only [collectPhase, hids, hd, if_pos h1, if_pos h2]
    simp

/-- C2 witness: an empty listing persists exactly the two base artifacts;
a two-snapshot listing yields a diff computed from the two ids in listing
order, persisting the last output line of the diff. -/
theorem collect_artifacts_spec_witness :
    collectPhase "[]" [] (fun _ _ => "stats") (fun _ => "x\ny")
      = Except.ok [("raw-snapshots", "[]"), ("snapshot-count", countPayload 0)]
    ∧ ∃ d, get_diff_stats "x\ny" = Except.ok d
        ∧ collectPhase "[s]" [⟨"aaa", PyTime.aware 1⟩, ⟨"bbb", PyTime.aware 2⟩]
            (fun _ _ => "stats") (fun _ => "x\ny")
          = Except.ok [("raw-snapshots", "[s]"),
                       ("snapshot-count", countPayload 2),
                       ("raw-stats-restore-size-latest", "stats"),
                       ("raw-diff-stats-latest", d)] :=
  ⟨collect_artifacts_spec.1 "[]" (fun _ _ => "stats") (fun _ => "x\ny"),
   by
    have h := collect_artifacts_spec.2 "[s]" [] ⟨"aaa", PyTime.aware 1⟩
      ⟨"bbb", PyTime.aware 2⟩ (fun _ _ => "stats") (fun _ => "x\ny") (by decide)
    simpa using h⟩

/-!
`handle_repo`: the per-repository orchestration.
-/

/-- The per-repository view of the outside world during one run: the
snapshot listing as parsed on the j-th freshness observation, the mtime of
the existing `raw-snapshots` latest pointer (if any), the raw listing and
its parse as fetched during Collect, the stats and diff outputs, and the
lock listing per lock-gate attempt with the lock-contents dump. -/
structure RepoView where
  snapshotsAt : Nat → List Snapshot
  pointerMtime : Option Int
  rawSnapshotsFinal : String
  snapshotsFinal : List Snapshot
  statsOut : String → Option String → String
  diffOut : List String → String
  locksAt : Nat → List String
  lockContent : String → String

/-- Terminal outcome of one repository pair's workflow (an uncaught error is
represented by the surrounding `Except`). -/
inductive Outcome where
  | done
  | skipped
deriving DecidableEq

/-- The part of `handle_repo` after the freshness gate: the lock gate
followed by the Collect phase. -/
def afterFresh (v : RepoView) (retries delay : Nat) :
    Except PyError (Outcome × List (String × String)) :=
  match (wait_until_unlocked v.locksAt v.lockContent delay retries).2.2 with
  | Except.error e => Except.error e
  | Except.ok () =>
    match collectPhase v.rawSnapshotsFinal v.snapshotsFinal v.statsOut v.diffOut with
    | Except.error e => Except.error e
    | Except.ok persists => Except.ok (Outcome.done, persists)

/-- `handle_repo`: with `skip_current` set, a single freshness check decides
between proceeding and returning without error (Skipped); otherwise the
freshness gate retries.  Returns the number of freshness observations
performed together with the outcome and the persisted artifacts. -/
def handle_repo (v : RepoView) (retries delay : Nat) (skip_current : Bool) :
    Nat × Except PyError (Outcome × List (String × String)) :=
  if skip_current then
    match has_fresh_snapshot (v.snapshotsAt 0) v.pointerMtime with
    | Except.error e => (1, Except.error e)
    | Except.ok (false, _) => (1, Except.ok (Outcome.skipped, []))
    | Except.ok (true, _) => (1, afterFresh v retries delay)
  else
    let w := wait_until_fresh_snapshot
      (fun j => has_fresh_snapshot (v.snapshotsAt j) v.pointerMtime) delay retries
    match w.2.2 with
    | Except.error e => (w.1, Except.error e)
    | Except.ok () => (w.1, afterFresh v retries delay)

/-- C8: with `skipIfStale` set, the workflow performs exactly one freshness
observation and, when the repository is not fresh, ends as Skipped with no
artifacts persisted.  Consequently a second run immediately after a
successful one is Skipped and persists nothing: the first run wrote the
latest pointer at some mtime `t1`, and with no new snapshot the latest
snapshot's completion time `te` still satisfies `te ≤ t1`, so the single
freshness check comes back not-fresh. -/
theorem skip_if_stale_spec :
    (∀ (v : RepoView) (retries delay : Nat) (ts : PyTime),
      has_fresh_snapshot (v.snapshotsAt 0) v.pointerMtime = Except.ok (false, ts) →
      handle_repo v retries delay true = (1, Except.ok (Outcome.skipped, [])))
    ∧ (∀ (v : RepoView) (retries delay : Nat) (s : Snapshot) (te t1 : Int),
      (v.snapshotsAt 0).getLast? = some s →
      s.backup_end = PyTime.aware te →
      v.pointerMtime = some t1 →
      te ≤ t1 →
      handle_repo v retries delay true = (1, Except.ok (Outcome.skipped, []))) := by
  constructor
  · intro v retries delay ts h
    simp [handle_repo, h]
  · intro v retries delay s te t1 hlast hend hmtime hle
    have hfresh : has_fresh_snapshot (v.snapshotsAt 0) v.pointerMtime
        = Except.ok (false, PyTime.aware te) := by
      unfold has_fresh_snapshot get_latest_snapshot_timestamp get_latest_statefile_timestamp
      rw [hlast, hmtime]
      simp [hend, pyGtTime]
      omega
    simp [handle_repo, hfresh]

/-- A repository pair as seen on a second run: one snapshot that finished at
time 100, with the latest pointer written at time 150 by the first run. -/
def secondRunView : RepoView where
  snapshotsAt := fun _ => [⟨"snap1", PyTime.aware 100⟩]
  pointerMtime := some 150
  rawSnapshotsFinal := "[snap1]"
  snapshotsFinal := [⟨"snap1", PyTime.aware 100⟩]
  statsOut := fun _ _ => "stats"
  diffOut := fun _ => "diff"
  locksAt := fun _ => []
  lockContent := fun _ => ""

/-- C8 witness: on the second-run view the workflow with `skipIfStale` makes
one freshness observation, is Skipped, and persists nothing. -/
theorem skip_if_stale_spec_witness :
    handle_repo secondRunView 3 0 true = (1, Except.ok (Outcome.skipped, [])) :=
  skip_if_stale_spec.2 secondRunView 3 0 ⟨"snap1", PyTime.aware 100⟩ 100 150
    rfl rfl rfl (by decide)

/-!
FleetRunner: `main`.
-/

/-- A configured backend: its name and repository address. -/
structure BackendConfig where
  name : String
  repository : String
deriving DecidableEq

/-- A configured location: its name, password-file path and named backends. -/
structure LocationConfig where
  name : String
  password_file : String
  backends : List (String × BackendConfig)
deriving DecidableEq

/-- The task-creation loop of `main`: one `handle_repo` task per
(location, backend) pair, all created before any task is awaited. -/
def createHandlerPairs : List (String × LocationConfig) →
    List (LocationConfig × BackendConfig)
  | [] => []
  | (_, loc) :: rest =>
    loc.backends.map (fun nb => (loc, nb.2)) ++ createHandlerPairs rest

/-- Whether one repository pair's task ended in a raised error. -/
def isFailed (r : Except PyError Outcome) : Bool :=
  match r with
  | Except.error _ => true
  | Except.ok _ => false

/-- The await loop of `main`: awaits each task outcome in completion order,
counting tasks that raised `ResticHealthError`; any other exception
propagates out of the loop uncaught. -/
def collectFails : List (Except PyError Outcome) → Except PyError Nat
  | [] => Except.ok 0
  | r :: rest =>
    match r with
    | Except.ok _ => collectFails rest
    | Except.error e =>
      if e.isResticHealthError then
        match collectFails rest with
        | Except.ok n => Except.ok (n + 1)
        | Except.error e2 => Except.error e2
      else Except.error e

/-- `main`'s result: the process exit code (0, or 1 via `sys.exit(1)` when
any failures were counted), or the uncaught exception that escaped the
loop. -/
def mainResult (results : List (Except PyError Outcome)) : Except PyError Nat :=
  match collectFails results with
  | Except.error e => Except.error e
  | Except.ok fails => Except.ok (if 0 < fails then 1 else 0)

lemma collectFails_all_rhe (results : List (Except PyError Outcome))
    (h : ∀ r ∈ results, ∀ e, r = Except.error e → e.isResticHealthError = true) :
    collectFails results = Except.ok (results.countP isFailed) := by
  induction results with
  | nil => rfl
  | cons r rest ih =>
    have hrest : ∀ r2 ∈ rest, ∀ e, r2 = Except.error e → e.isResticHealthError = true :=
      fun r2 hr2 e he => h r2 (List.mem_cons_of_mem r hr2) e he
    cases r with
    | ok o =>
      simp only [collectFails, ih hrest, List.countP_cons]
      simp [isFailed]
    | error e =>
      have he : e.isResticHealthError = true := h _ (List.mem_cons_self _ _) e rfl
      simp only [collectFails, he, if_true, ih hrest, List.countP_cons]
      simp [isFailed]

/-- C5 (amended): when every error raised inside the repository workflows is
a `ResticHealthError` (as the tool-failure, freshness-exhaustion and
lock-exhaustion errors are), each such error is caught at the fleet loop and
converted into a counted failure for that pair only, and the run terminates
normally with exit code 1 when there was any failure and 0 otherwise; the
other pairs' outcomes enter the aggregation unchanged.  (An error of any
other class escapes the loop instead — see the counterexample.) -/
theorem fleet_catches_rhe (results : List (Except PyError Outcome))
    (h : ∀ r ∈ results, ∀ e, r = Except.error e → e.isResticHealthError = true) :
    mainResult results = Except.ok (if 0 < results.countP isFailed then 1 else 0) := by
  unfold mainResult
  rw [collectFails_all_rhe results h]

/-- C5 witness: a fleet of three pairs where the middle one exhausts the
lock gate reports exit code 1 after counting exactly that failure. -/
theorem fleet_catches_rhe_witness :
    mainResult [Except.ok Outcome.done,
                Except.error (PyError.lockTimeout ["lock1"]),
                Except.ok Outcome.done] = Except.ok 1 :=
  fleet_catches_rhe
    [Except.ok Outcome.done, Except.error (PyError.lockTimeout ["lock1"]),
     Except.ok Outcome.done]
    (by
      intro r hr e he
      fin_cases hr
      · exact Except.noConfusion he
      · injection he with h2; subst h2; rfl
      · exact Except.noConfusion he)

/-- C5 counterexample: an error that is not a `ResticHealthError` (here the
`TypeError` that `has_fresh_snapshot` raises for an empty repository) is not
caught by the fleet loop: the run does not produce an exit code at all but
terminates with the propagated exception, contradicting the claim that every
per-pair error is converted into a Failed outcome and never propagates past
the fleet runner. -/
theorem fleet_non_rhe_propagates :
    mainResult [Except.ok Outcome.done, Except.error PyError.typeError,
                Except.ok Outcome.done]
      = Except.error PyError.typeError := by
  rfl

lemma createHandlerPairs_length (locs : List (String × LocationConfig)) :
    (createHandlerPairs locs).length
      = ((locs.map (fun l => (Prod.snd l).backends.length)).sum) := by
  induction locs with
  | nil => rfl
  | cons l rest ih =>
    simp [createHandlerPairs, ih]

/-- C7: the task-creation loop creates exactly one task per configured
(location, backend) pair, all before any task is awaited; after all complete
(with every raised error a `ResticHealthError`), the exit code is 0 exactly
when no task failed, and 1 otherwise; a run whose tasks all return normally
— Skipped included — exits 0. -/
theorem fleet_run_spec :
    (∀ locs : List (String × LocationConfig),
      (createHandlerPairs locs).length
        = ((locs.map (fun l => (Prod.snd l).backends.length)).sum))
    ∧ (∀ results : List (Except PyError Outcome),
      (∀ r ∈ results, ∀ e, r = Except.error e → e.isResticHealthError = true) →
      (mainResult results = Except.ok 0 ↔ results.countP isFailed = 0)
        ∧ (0 < results.countP isFailed → mainResult results = Except.ok 1))
    ∧ (∀ results : List (Except PyError Outcome),
      (∀ r ∈ results, ∃ o, r = Except.ok o) → mainResult results = Except.ok 0) := by
  refine ⟨createHandlerPairs_length, ?_, ?_⟩
  · intro results h
    have hm : mainResult results
        = Except.ok (if 0 < results.countP isFailed then 1 else 0) := by
      unfold mainResult
      rw [collectFails_all_rhe results h]
    constructor
    · rw [hm]
      constructor
      · intro h0
        by_contra hc
        have hpos : 0 < results.countP isFailed := Nat.pos_of_ne_zero hc
        rw [if_pos hpos] at h0
        simp at h0
      · intro hc
        rw [hc]
        simp
    · intro hc
      rw [hm, if_pos hc]
  · intro results h
    have hcount : results.countP isFailed = 0 := by
      rw [List.countP_eq_zero]
      intro r hr
      obtain ⟨o, rfl⟩ := h r hr
      simp [isFailed]
    have hrhe : ∀ r ∈ results, ∀ e, r = Except.error e → e.isResticHealthError = true := by
      intro r hr e he
      obtain ⟨o, rfl⟩ := h r hr
      cases he
    unfold mainResult
    rw [collectFails_all_rhe results hrhe, hcount]
    rfl

/-- A sample fleet configuration: two locations with two and one backends. -/
def sampleLocs : List (String × LocationConfig) :=
  [("home", ⟨"home", "/etc/pw1",
      [("b1", ⟨"b1", "rest:https://one"⟩), ("b2", ⟨"b2", "sftp:two"⟩)]⟩),
   ("work", ⟨"work", "/etc/pw2", [("b3", ⟨"b3", "/srv/three"⟩)]⟩)]

/-- C7 witness: three tasks are created for the sample fleet; a run with one
stale-data failure among three pairs exits 1; a run of one Done and one
Skipped pair exits 0. -/
theorem fleet_run_spec_witness :
    (createHandlerPairs sampleLocs).length
      = ((sampleLocs.map (fun l => (Prod.snd l).backends.length)).sum)
    ∧ (0 < ([Except.ok Outcome.done,
             Except.error (PyError.staleData (PyTime.aware 7)),
             Except.ok Outcome.skipped].countP isFailed) →
        mainResult [Except.ok Outcome.done,
                    Except.error (PyError.staleData (PyTime.aware 7)),
                    Except.ok Outcome.skipped] = Except.ok 1)
    ∧ mainResult [Except.ok Outcome.done, Except.ok Outcome.skipped] = Except.ok 0 :=
  ⟨fleet_run_spec.1 sampleLocs,
   (fleet_run_spec.2.1
      [Except.ok Outcome.done, Except.error (PyError.staleData (PyTime.aware 7)),
       Except.ok Outcome.skipped]
      (by
        intro r hr e he
        fin_cases hr
        · exact Except.noConfusion he
        · injection he with h2; subst h2; rfl
        · exact Except.noConfusion he)).2,
   fleet_run_spec.2.2 [Except.ok Outcome.done, Except.ok Outcome.skipped]
     (by
       intro r hr
       fin_cases hr
       · exact ⟨Outcome.done, rfl⟩
       · exact ⟨Outcome.skipped, rfl⟩)⟩

/-!
Configuration loading and the restic command line.
-/

/-- A scalar YAML value as loaded by the config parser. -/
inductive YamlVal where
  | str (s : String)
  | num (n : Int)
  | null
deriving DecidableEq

/-- Python truthiness of a scalar YAML value (`None`, `''` and `0` are
falsy). -/
def YamlVal.truthy : YamlVal → Bool
  | YamlVal.str s => decide (s ≠ "")
  | YamlVal.num n => decide (n ≠ 0)
  | YamlVal.null => false

/-- The value as it would be spliced into the command line. -/
def YamlVal.asString : YamlVal → String
  | YamlVal.str s => s
  | YamlVal.num n => toString n
  | YamlVal.null => ""

/-- Python dict lookup on a key-ordered association list. -/
def dictLookup (d : List (String × YamlVal)) (k : String) : Option YamlVal :=
  match d with
  | [] => none
  | (k2, v) :: rest => if k2 = k then some v else dictLookup rest k

/-- The default-filling step `if not k in d: d[k] = v`. -/
def addDefault (d : List (String × YamlVal)) (k : String) (v : YamlVal) :
    List (String × YamlVal) :=
  match dictLookup d k with
  | some _ => d
  | none => (k, v) :: d

/-- The validated general configuration (`GeneralConfig` in the source). -/
structure GeneralConfig where
  state_dir : String
  cache_dir : Option String
  retries : YamlVal
  retry_delay : YamlVal
deriving DecidableEq

/-- One location's raw YAML: a possibly missing `password_file` and a
possibly missing `backends` mapping of backend name to repository address. -/
structure LocationYaml where
  password_file : Option String
  backends : Option (List (String × String))
deriving DecidableEq

/-- The raw configuration file: a possibly missing `state_dir`, a possibly
missing `defaults` mapping, and the `locations` mapping. -/
structure ConfigYaml where
  state_dir : Option String
  defaults : Option (List (String × YamlVal))
  locations : List (String × LocationYaml)
deriving DecidableEq

/-- Loading of the general section: fill in default `retries` and
`retry_delay` when missing, then read `state_dir`, then
`config_yaml['defaults']['cache_dir'] or None` — a missing `cache_dir` key
raises `KeyError`, while a present falsy value becomes `None`. -/
def loadGeneralConfig (y : ConfigYaml) : Except PyError GeneralConfig :=
  let d0 := match y.defaults with
    | none => []
    | some d => d
  let d1 := addDefault d0 "retries" (YamlVal.num 30)
  let d := addDefault d1 "retry_delay" (YamlVal.num 120)
  match y.state_dir with
  | none => Except.error (PyError.keyError "state_dir")
  | some sd =>
    match dictLookup d "cache_dir" with
    | none => Except.error (PyError.keyError "cache_dir")
    | some cv =>
      match dictLookup d "retries", dictLookup d "retry_delay" with
      | some r, some rd =>
        Except.ok { state_dir := sd,
                    cache_dir := if cv.truthy then some cv.asString else none,
                    retries := r, retry_delay := rd }
      | _, _ => Except.error (PyError.keyError "retries")

/-- The backend-parsing loop of one location: `location.get('backends') or
dict()`, each entry becoming a named `BackendConfig`. -/
def parseBackends : Option (List (String × String)) → List (String × BackendConfig)
  | none => []
  | some l => l.map (fun nb => (nb.1, BackendConfig.mk nb.1 nb.2))

/-- The location-parsing loop: each location must have a `password_file`;
a missing `backends` mapping is treated as empty. -/
def parseLocations : List (String × LocationYaml) →
    Except PyError (List (String × LocationConfig))
  | [] => Except.ok []
  | (n, ly) :: rest =>
    match ly.password_file with
    | none => Except.error (PyError.keyError "password_file")
    | some pw =>
      match parseLocations rest with
      | Except.error e => Except.error e
      | Except.ok others =>
        Except.ok ((n, LocationConfig.mk n pw (parseBackends ly.backends)) :: others)

/-- Full configuration loading: the general section, then the locations. -/
def loadConfig (y : ConfigYaml) :
    Except PyError (GeneralConfig × List (String × LocationConfig)) :=
  match loadGeneralConfig y with
  | Except.error e => Except.error e
  | Except.ok g =>
    match parseLocations y.locations with
    | Except.error e => Except.error e
    | Except.ok locs => Except.ok (g, locs)

/-- The command line built by `restic(...)`: base flags, the cache-dir
arguments only when a cache dir is configured, then the per-call
arguments. -/
def resticCmd (cfg : GeneralConfig) (extra : List String) : List String :=
  let cacheDirArgs := match cfg.cache_dir with
    | some d => ["--cache-dir", d]
    | none => []
  ["restic", "--quiet", "--no-lock"] ++ cacheDirArgs ++ extra

/-- A configuration that supplies every required field but whose `defaults`
section has no `cache_dir` key at all. -/
def configNoCacheKey : ConfigYaml where
  state_dir := some "/var/lib/restic-health"
  defaults := some []
  locations := [("home", ⟨some "/etc/pw", some [("b1", "rest:https://one")]⟩)]

/-- C9 counterexample: omitting the `cache_dir` key entirely makes
configuration loading raise `KeyError` instead of succeeding with an absent
cache directory — the `or None` coercion is only reached when the key is
present. -/
theorem config_missing_cache_dir_key_error :
    loadConfig configNoCacheKey = Except.error (PyError.keyError "cache_dir") := by
  rfl

lemma dictLookup_addDefault_other (d : List (String × YamlVal)) (k k2 : String)
    (v : YamlVal) (h : k ≠ k2) :
    dictLookup (addDefault d k v) k2 = dictLookup d k2 := by
  unfold addDefault
  cases dictLookup d k with
  | none => simp [dictLookup, h]
  | some w => rfl

lemma parseLocations_total (locs : List (String × LocationYaml))
    (h : ∀ l ∈ locs, (Prod.snd l).password_file.isSome = true) :
    ∃ plist, parseLocations locs = Except.ok plist := by
  induction locs with
  | nil => exact ⟨[], rfl⟩
  | cons l rest ih =>
    obtain ⟨n, ly⟩ := l
    have hpw : ly.password_file.isSome = true := h _ (List.mem_cons_self _ _)
    obtain ⟨pw, hpw2⟩ := Option.isSome_iff_exists.mp hpw
    obtain ⟨plist, hrest⟩ := ih (fun l2 hl2 => h l2 (List.mem_cons_of_mem _ hl2))
    refine ⟨(n, LocationConfig.mk n pw (parseBackends ly.backends)) :: plist, ?_⟩
    simp only [parseLocations, hpw2, hrest]

/-- C9 (amended): when the `cache_dir` key is present in `defaults` but
carries a falsy value (`null`, empty string or 0) and the remaining required
fields are supplied, loading succeeds, the cache directory is absent in the
validated configuration, and no `--cache-dir` argument is passed to the
tool; when the key is missing entirely, loading fails with `KeyError` (see
the counterexample). -/
theorem config_null_cache_dir_ok (sd : String) (d0 : List (String × YamlVal))
    (locs : List (String × LocationYaml)) (v : YamlVal) (extra : List String)
    (hv : dictLookup d0 "cache_dir" = some v) (ht : v.truthy = false)
    (hlocs : ∀ l ∈ locs, (Prod.snd l).password_file.isSome = true) :
    ∃ g plist,
      loadConfig { state_dir := some sd, defaults := some d0, locations := locs }
        = Except.ok (g, plist)
      ∧ g.cache_dir = none
      ∧ resticCmd g extra = ["restic", "--quiet", "--no-lock"] ++ extra := by
  have hcache : dictLookup (addDefault (addDefault d0 "retries" (YamlVal.num 30))
      "retry_delay" (YamlVal.num 120)) "cache_dir" = some v := by
    rw [dictLookup_addDefault_other _ _ _ _ (by decide),
      dictLookup_addDefault_other _ _ _ _ (by decide)]
    exact hv
  have hretries : ∃ r, dictLookup (addDefault (addDefault d0 "retries" (YamlVal.num 30))
      "retry_delay" (YamlVal.num 120)) "retries" = some r := by
    rw [dictLookup_addDefault_other _ _ _ _ (by decide)]
    unfold addDefault
    cases hr : dictLookup d0 "retries" with
    | none => exact ⟨YamlVal.num 30, by simp [dictLookup]⟩
    | some w => exact ⟨w, hr⟩
  have hdelay : ∃ rd, dictLookup (addDefault (addDefault d0 "retries" (YamlVal.num 30))
      "retry_delay" (YamlVal.num 120)) "retry_delay" = some rd := by
    generalize addDefault d0 "retries" (YamlVal.num 30) = d1
    unfold addDefault
    cases hr : dictLookup d1 "retry_delay" with
    | none => exact ⟨YamlVal.num 120, by simp [dictLookup]⟩
    | some w => exact ⟨w, hr⟩
  obtain ⟨r, hr⟩ := hretries
  obtain ⟨rd, hrd⟩ := hdelay
  obtain ⟨plist, hplist⟩ := parseLocations_total locs hlocs
  refine ⟨⟨sd, none, r, rd⟩, plist, ?_, rfl, rfl⟩
  unfold loadConfig loadGeneralConfig
  simp only [hcache, hr, hrd, hplist, ht, Bool.false_eq_true, if_false]

/-- C9 witness: a configuration whose `defaults` carries `cache_dir: null`
loads successfully, the cache directory is absent, and the constructed
command line has no `--cache-dir` flag. -/
theorem config_null_cache_dir_ok_witness :
    ∃ g plist,
      loadConfig { state_dir := some "/var/lib/restic-health",
                   defaults := some [("cache_dir", YamlVal.null)],
                   locations := [("home", ⟨some "/etc/pw", some [("b1", "rest:https://one")]⟩)] }
        = Except.ok (g, plist)
      ∧ g.cache_dir = none
      ∧ resticCmd g ["--json", "snapshots"]
          = ["restic", "--quiet", "--no-lock"] ++ ["--json", "snapshots"] :=
  config_null_cache_dir_ok "/var/lib/restic-health" [("cache_dir", YamlVal.null)]
    [("home", ⟨some "/etc/pw", some [("b1", "rest:https://one")]⟩)]
    YamlVal.null ["--json", "snapshots"] (by decide) (by decide)
    (by
      intro l hl
      fin_cases hl
      rfl)

end ResticHealth

